import Mathlib

/-!
Verification development for the `RotatingSphere` interactive animation engine
(`src/components/home/HomePage.js`).

The per-cell animation model, the geometry generator, the texture update
scheduler, the switch debounce and the media error handler are shallowly
embedded over `ℚ`.  Floating point numbers of the source are modelled as exact
rationals.  Quantities that the source obtains from transcendental library
calls (`Math.PI`, `Math.sin`, `Math.sqrt` used by `Vector3.normalize`,
`Vector3.length`, `Vector3.distanceTo`) are supplied as explicit parameters;
every theorem carries the hypotheses those parameters satisfy in the source
(for example the value standing for `Math.PI` is positive, a value standing
for a vector length squares to the vector's squared norm, a value standing for
`Math.sin(p·π)` lies in `[0,1]` for `p ∈ [0,1]`, which is proved for the real
sine in `halfSine_bounds`).
-/

namespace Friendly

/-- Rational 3-vector, modelling `THREE.Vector3` coordinates. -/
structure V3 where
  x : ℚ
  y : ℚ
  z : ℚ
deriving DecidableEq, Repr

namespace V3

/-- The zero vector, `new THREE.Vector3(0, 0, 0)`. -/
def zero : V3 := ⟨0, 0, 0⟩

/-- Componentwise addition, `Vector3.add`. -/
def add (a b : V3) : V3 := ⟨a.x + b.x, a.y + b.y, a.z + b.z⟩

/-- Componentwise subtraction, `Vector3.sub`. -/
def sub (a b : V3) : V3 := ⟨a.x - b.x, a.y - b.y, a.z - b.z⟩

/-- Scalar multiple, `Vector3.multiplyScalar`. -/
def smul (s : ℚ) (a : V3) : V3 := ⟨s * a.x, s * a.y, s * a.z⟩

/-- Squared Euclidean norm, `Vector3.lengthSq`.  The source compares
`length()` against nonnegative constants; those comparisons are carried out
here on squares, which is equivalent. -/
def normSq (a : V3) : ℚ := a.x * a.x + a.y * a.y + a.z * a.z

/-- Division of every coordinate by `n`.  With `n` the (float) length of `v`
this is exactly `Vector3.normalize`; the length is supplied as a parameter
because a rational vector has an irrational norm in general. -/
def normalizeW (n : ℚ) (v : V3) : V3 := ⟨v.x / n, v.y / n, v.z / n⟩

end V3

/-!
### SPHERE_CONFIG constants

The relevant entries of `SPHERE_CONFIG` (HomePage.js lines 206–225), as exact
rationals.  `maxTrailRotation` is `Math.PI * 0.6` in the source; here angles
are kept in radians with the float value of `Math.PI` abstracted as a
parameter `piQ`, so the constant is expressed as `(3/5) * piQ` at use sites.
-/

/-- `flipDuration: 250` (ms). -/
def flipDuration : ℚ := 250
/-- `trailDuration: 300` (ms). -/
def trailDuration : ℚ := 300
/-- `returnDuration: 250` (ms). -/
def returnDuration : ℚ := 250
/-- `initialTrailVelocity: 3.0` (radians per second). -/
def initialTrailVelocity : ℚ := 3
/-- `maxFloatHeight: 0.04`. -/
def maxFloatHeight : ℚ := 1/25
/-- `springStiffness: 10.0`. -/
def springStiffness : ℚ := 10
/-- `dampingRatio: 0.7`. -/
def dampingRatioQ : ℚ := 7/10
/-- `explodeDuration: 250` (ms). -/
def explodeDuration : ℚ := 250
/-- `explodeDistance: 0.1`. -/
def explodeDistance : ℚ := 1/10
/-- `mouseSpeedThreshold: 1.8`. -/
def mouseSpeedThreshold : ℚ := 9/5

/-- Per-cell animation state, translating the `cubeData` record built in
`initCubeSphere` (HomePage.js lines 410–451).  The mesh is represented by the
fields it exposes to the animation code: its position, its rotation about the
local Y axis relative to `originalRotation`, and the `opacity` of each entry
of its six-material array (index 4 is the front, textured face). -/
structure CubeData where
  originalPosition : V3
  isFlipped : Bool
  flipProgress : ℚ
  targetFlipProgress : ℚ
  flipDelay : ℚ
  delayTimer : ℚ
  trailTimer : ℚ
  isInTrail : Bool
  isInReturn : Bool
  isExploding : Bool
  lastActiveTime : ℚ
  trailIntensity : ℚ
  rotationVelocity : ℚ
  maxRotationAngle : ℚ
  currentRotationAngle : ℚ
  currentOffset : V3
  targetOffset : V3
  offsetVelocity : V3
  maxOffset : ℚ
  currentOpacity : ℚ
  targetOpacity : ℚ
  explodeTimer : ℚ
  explodeDirection : V3
  explodeIntensity : ℚ
  meshPosition : V3
  meshRotationY : ℚ
  materialsOpacity : List ℚ
deriving DecidableEq, Repr

/-- A freshly created cell: every animation field at rest, opacity `1.0`,
six materials each with opacity `1.0`, mesh at its original position
(`initCubeSphere`). -/
def initialCube (pos : V3) : CubeData where
  originalPosition := pos
  isFlipped := false
  flipProgress := 0
  targetFlipProgress := 0
  flipDelay := 0
  delayTimer := 0
  trailTimer := 0
  isInTrail := false
  isInReturn := false
  isExploding := false
  lastActiveTime := 0
  trailIntensity := 0
  rotationVelocity := 0
  maxRotationAngle := 0
  currentRotationAngle := 0
  currentOffset := V3.zero
  targetOffset := V3.zero
  offsetVelocity := V3.zero
  maxOffset := 0
  currentOpacity := 1
  targetOpacity := 1
  explodeTimer := 0
  explodeDirection := V3.zero
  explodeIntensity := 0
  meshPosition := pos
  meshRotationY := 0
  materialsOpacity := List.replicate 6 1

/-- `Math.sign`. -/
def sgnQ (q : ℚ) : ℚ := if q > 0 then 1 else if q < 0 then -1 else 0

/-- Body of the per-cell loop of `handleCubeFlip` (HomePage.js lines
593–648).  `now` models `performance.now()`; `dist` models
`originalPosition.distanceTo(localIntersectionPoint)`; `mouseSpeed` is the
smoothed pointer speed; `npos` models `originalPosition.length()`, so that
`V3.normalizeW npos c.originalPosition` is `originalPosition.clone().normalize()`;
`piQ` models `Math.PI`.  The influence radius `0.25` and its reciprocal use
are hard-coded in the source exactly as here. -/
def handleCubeFlipCell (piQ now dist mouseSpeed npos : ℚ) (c : CubeData) : CubeData :=
  let isHighSpeed := mouseSpeed > mouseSpeedThreshold
  if dist < 1/4 then
    let normalizedDistance := dist / (1/4)
    let fadeEffect := 1 - normalizedDistance
    let c1 :=
      if isHighSpeed ∧ c.isExploding = false then
        { c with isExploding := true
                 explodeTimer := 0
                 explodeIntensity := min 1 (mouseSpeed / mouseSpeedThreshold)
                 explodeDirection := V3.normalizeW npos c.originalPosition
                 targetOpacity := 85/100 }
      else if c.isExploding = false then
        { c with targetFlipProgress := max (3/10) fadeEffect
                 flipDelay := normalizedDistance * (5/100)
                 targetOffset := V3.smul (maxFloatHeight * fadeEffect)
                   (V3.normalizeW npos c.originalPosition)
                 maxOffset := maxFloatHeight * fadeEffect
                 targetOpacity := 92/100 }
      else c
    { c1 with lastActiveTime := now
              isInTrail := false
              isInReturn := false
              trailTimer := 0
              trailIntensity := fadeEffect
              rotationVelocity := 0 }
  else if c.isInTrail = false ∧ c.isInReturn = false ∧ c.isExploding = false ∧
      c.targetFlipProgress > 0 then
    { c with isInTrail := true
             isInReturn := false
             trailTimer := 0
             rotationVelocity := initialTrailVelocity * c.trailIntensity
             maxRotationAngle := (3/5) * piQ * c.trailIntensity
             currentRotationAngle := c.flipProgress * piQ }
  else c

/-- Body of the per-cell loop of `resetTrailStates` (HomePage.js lines
682–706).  `lenTO` models `targetOffset.length()`. -/
def resetTrailStatesCell (piQ lenTO : ℚ) (c : CubeData) : CubeData :=
  if (c.targetFlipProgress > 0 ∨ lenTO > 0) ∧ c.isInTrail = false ∧
      c.isInReturn = false ∧ c.isExploding = false then
    let ti := max c.targetFlipProgress (lenTO / maxFloatHeight)
    { c with isInTrail := true
             isInReturn := false
             trailTimer := 0
             trailIntensity := ti
             rotationVelocity := initialTrailVelocity * ti
             maxRotationAngle := (3/5) * piQ * ti
             currentRotationAngle := c.flipProgress * piQ
             targetOffset := V3.zero
             currentOpacity := if c.currentOpacity < 92/100 then 92/100 else c.currentOpacity }
  else c

/-- The `needsUpdate` block at the end of the per-cell loop of
`updateCubeAnimations` (HomePage.js lines 874–900): reapply the base
rotation plus `rotateY(currentRotationAngle)`, set the mesh position to
`originalPosition + currentOffset`, write `currentOpacity` into the
`opacity` of every entry of the material array (`material.forEach`), then
recompute `flipProgress = currentRotationAngle / π` and
`isFlipped = flipProgress > 0.5`. -/
def applyUpdate (piQ : ℚ) (c : CubeData) : CubeData :=
  { c with meshRotationY := c.currentRotationAngle
           meshPosition := V3.add c.originalPosition c.currentOffset
           materialsOpacity := c.materialsOpacity.map (fun _ => c.currentOpacity)
           flipProgress := c.currentRotationAngle / piQ
           isFlipped := decide (c.currentRotationAngle / piQ > 1/2) }

/-- The `isExploding` branch of `updateCubeAnimations` (lines 719–746).
`sinPi p` models `Math.sin(p * Math.PI)`. -/
def explodeStep (piQ : ℚ) (sinPi : ℚ → ℚ) (dt : ℚ) (c : CubeData) : CubeData :=
  let t := c.explodeTimer + dt * 1000
  if t < explodeDuration then
    let explodeProgress := t / explodeDuration
    let easeOut := 1 - (1 - explodeProgress) ^ 3
    let ed := explodeDistance * c.explodeIntensity * sinPi explodeProgress
    applyUpdate piQ
      { c with explodeTimer := t
               currentRotationAngle := easeOut * piQ * 2 * c.explodeIntensity
               currentOffset := V3.smul ed c.explodeDirection
               currentOpacity := 85/100 + (1 - explodeProgress) * (15/100) }
  else
    { c with explodeTimer := t
             isExploding := false
             isInReturn := true
             trailTimer := 0
             targetOpacity := 1 }

/-- The `isInTrail` branch of `updateCubeAnimations` (lines 749–779). -/
def trailStep (piQ dt : ℚ) (c : CubeData) : CubeData :=
  let t := c.trailTimer + dt * 1000
  if t < trailDuration then
    let trailProgress := t / trailDuration
    let v := initialTrailVelocity * c.trailIntensity * (1 - trailProgress)
    let a := c.currentRotationAngle + v * dt
    let capped := a > c.maxRotationAngle
    applyUpdate piQ
      { c with trailTimer := t
               rotationVelocity := if capped then 0 else v
               currentRotationAngle := if capped then c.maxRotationAngle else a
               targetOpacity := 92/100 + trailProgress * (8/100) }
  else
    { c with trailTimer := 0
             isInTrail := false
             isInReturn := true
             rotationVelocity := 0 }

/-- The `isInReturn` branch of `updateCubeAnimations` (lines 782–819). -/
def returnStep (piQ dt : ℚ) (c : CubeData) : CubeData :=
  let t := c.trailTimer + dt * 1000
  let returnProgress := t / returnDuration
  let easeInOut :=
    if returnProgress < 1/2 then 2 * returnProgress * returnProgress
    else 1 - (-2 * returnProgress + 2) ^ 3 / 2
  if returnProgress ≥ 1 then
    applyUpdate piQ
      { c with isInReturn := false
               currentRotationAngle := 0
               flipProgress := 0
               targetFlipProgress := 0
               trailTimer := 0
               trailIntensity := 0
               rotationVelocity := 0
               maxRotationAngle := 0
               currentOffset := V3.zero
               targetOffset := V3.zero
               currentOpacity := 1
               targetOpacity := 1 }
  else
    applyUpdate piQ
      { c with trailTimer := t
               currentRotationAngle := c.maxRotationAngle * (1 - easeInOut)
               currentOffset := V3.smul (1 - easeInOut) c.currentOffset
               targetOpacity := c.currentOpacity + (1 - c.currentOpacity) * easeInOut }

/-- The flip easing of the final branch of `updateCubeAnimations` (lines
831–837): step `flipProgress` toward `targetFlipProgress` by at most
`speed · dt` with `speed = 1/(flipDuration/1000)`, then recompute the
rotation angle.  The `Bool` is this section's contribution to
`needsUpdate`. -/
def flipEase (piQ dt : ℚ) (c : CubeData) : CubeData × Bool :=
  let speed := 1 / (flipDuration / 1000)
  let rotDiff := c.targetFlipProgress - c.flipProgress
  if |rotDiff| > 1/100 then
    let fp := c.flipProgress + sgnQ rotDiff * min |rotDiff| (speed * dt)
    ({ c with flipProgress := fp, currentRotationAngle := fp * piQ }, true)
  else (c, false)

/-- The spring integration of the final branch (lines 839–859): explicit
Euler step of the damped spring toward `targetOffset`.  The length
comparison `offsetDiff.length() > 0.001` is carried out on squared norms,
which is equivalent. -/
def springEase (dt : ℚ) (c : CubeData) : CubeData × Bool :=
  let offsetDiff := V3.sub c.targetOffset c.currentOffset
  if offsetDiff.normSq > (1/1000) ^ 2 then
    let springForce := V3.smul springStiffness offsetDiff
    let dampingForce := V3.smul (-dampingRatioQ) c.offsetVelocity
    let totalForce := V3.add springForce dampingForce
    let vel := V3.add c.offsetVelocity (V3.smul dt totalForce)
    ({ c with offsetVelocity := vel
              currentOffset := V3.add c.currentOffset (V3.smul dt vel) }, true)
  else ({ c with offsetVelocity := V3.zero, delayTimer := 0 }, false)

/-- The opacity easing of the final branch (lines 861–871): step
`currentOpacity` toward `targetOpacity` at rate `2.0` per second; at rest
with no remaining targets relax `targetOpacity` back to `1.0`.  The
comparison `targetOffset.length() === 0` is carried out on the squared
norm, which is equivalent. -/
def opacityEase (dt : ℚ) (c : CubeData) : CubeData × Bool :=
  let opacityDiff := c.targetOpacity - c.currentOpacity
  if |opacityDiff| > 5/1000 then
    ({ c with currentOpacity :=
        c.currentOpacity + sgnQ opacityDiff * min |opacityDiff| (2 * dt) }, true)
  else if (decide (c.targetFlipProgress = 0 ∧ c.targetOffset.normSq = 0) : Bool) then
    ({ c with targetOpacity := 1 }, false)
  else (c, false)

/-- The final (spring physics) branch of `updateCubeAnimations` (lines
822–872): the `flipDelay` early return, then the flip easing, the spring
integration and the opacity easing, applying the mesh update when any of
the three sections reported a change. -/
def normalStep (piQ dt : ℚ) (c : CubeData) : CubeData :=
  if c.flipDelay > 0 ∧ c.delayTimer + dt < c.flipDelay then
    { c with delayTimer := c.delayTimer + dt }
  else
    let c0 : CubeData := if c.flipDelay > 0 then { c with delayTimer := c.delayTimer + dt } else c
    let r1 := flipEase piQ dt c0
    let r2 := springEase dt r1.1
    let r3 := opacityEase dt r2.1
    if r1.2 || r2.2 || r3.2 then applyUpdate piQ r3.1 else r3.1

/-- Body of the per-cell loop of `updateCubeAnimations` (HomePage.js lines
709–902): dispatch on the mutually exclusive lifecycle flags, otherwise run
the spring/easing physics. -/
def updateCubeAnimationsCell (piQ : ℚ) (sinPi : ℚ → ℚ) (dt : ℚ) (c : CubeData) : CubeData :=
  if c.isExploding then explodeStep piQ sinPi dt c
  else if c.isInTrail then trailStep piQ dt c
  else if c.isInReturn then returnStep piQ dt c
  else normalStep piQ dt c

/-!
### Geometry generator — `generateCubePositions` (HomePage.js lines 244–290)

Angles are represented by their normalized values: `phiN ring = φ/π` (the
source computes `φ = (ring + 0.5) · π/(rings + 1)`) and `thetaN n i = θ/(2π)`
(the source computes `θ = (i / cubesInThisRing) · 2π`).  With these units the
transcendental factor cancels from every UV formula, so the UV computation is
exact.  Positions use oracles for `Math.sin`, `Math.cos` and `Math.PI`
(`TrigOracle`), keeping the generator a total computable function of its
inputs, exactly as the source function is a pure function of its inputs. -/

/-- `rings: 30` of `SPHERE_CONFIG`. -/
def rings : ℕ := 30

/-- `cubeSize: 0.228` of `SPHERE_CONFIG`. -/
def cubeSizeQ : ℚ := 228/1000

/-- `cubeOverlap = 0.15` (local constant of `generateCubePositions`). -/
def cubeOverlap : ℚ := 15/100

/-- Oracles standing for the float library functions used by the generator:
`sinpi x` models `Math.sin(x·π)`, `cospi x` models `Math.cos(x·π)`,
`sin2pi t` models `Math.sin(t·2π)`, `cos2pi t` models `Math.cos(t·2π)`, and
`piv` models `Math.PI`. -/
structure TrigOracle where
  sinpi : ℚ → ℚ
  cospi : ℚ → ℚ
  sin2pi : ℚ → ℚ
  cos2pi : ℚ → ℚ
  piv : ℚ

/-- Normalized polar angle of a ring: `φ/π = (ring + 0.5)/(rings + 1)`
(`ringSpacing = Math.PI / (rings + 1)`, `phi = (ring + 0.5) * ringSpacing`). -/
def phiN (ring : ℕ) : ℚ := ((ring : ℚ) + 1/2) / ((rings : ℚ) + 1)

/-- Normalized azimuth of cell `i` of a ring of `n` cells:
`θ/(2π) = i / n` (`theta = (i / cubesInThisRing) * 2 * Math.PI`). -/
def thetaN (n i : ℕ) : ℚ := (i : ℚ) / (n : ℚ)

/-- The JavaScript `% 1` on a nonnegative float: `x % 1 = x - ⌊x⌋`. -/
def jsMod1 (x : ℚ) : ℚ := x - ⌊x⌋

/-- Number of cubes placed on a ring (`cubesInThisRing`): the two polar rings
get the fixed floor `10`; the three rings adjacent to each pole get
`max 12 ⌊circumference / (cubeSize · 0.15 · 0.8)⌋`; all other rings get
`max 14 ⌊circumference / (cubeSize · 0.15 · 0.9)⌋`, where
`circumference = 2π · sin(φ) · radius`. -/
def cubesInRing (tr : TrigOracle) (radius : ℚ) (ring : ℕ) : ℕ :=
  let ringRadius := tr.sinpi (phiN ring) * radius
  let circumference := 2 * tr.piv * ringRadius
  if ring = 0 ∨ ring = rings - 1 then 10
  else if ring < 3 ∨ ring > rings - 4 then
    max 12 (Int.toNat ⌊circumference / (cubeSizeQ * cubeOverlap * (8/10))⌋)
  else
    max 14 (Int.toNat ⌊circumference / (cubeSizeQ * cubeOverlap * (9/10))⌋)

/-- One generated cell: its position and its UV pair, together with the
ring index and azimuth index it was generated from. -/
structure GenCell where
  pos : V3
  u : ℚ
  v : ℚ
  ring : ℕ
  idx : ℕ
deriving DecidableEq, Repr

/-- A default cell used only as the out-of-range value of `List.getD`. -/
def dfltCell : GenCell := ⟨V3.zero, 0, 0, 0, 0⟩

/-- The cells of one ring of `generateCubePositions`: position
`(ringRadius·cos θ, cos φ · radius, ringRadius·sin θ)` and UV
`u = (θ/(2π) + 0.5) % 1`, `v = 1 − φ/π`. -/
def ringCells (tr : TrigOracle) (radius : ℚ) (ring : ℕ) : List GenCell :=
  let n := cubesInRing tr radius ring
  let ringRadius := tr.sinpi (phiN ring) * radius
  let y := tr.cospi (phiN ring) * radius
  (List.range n).map (fun i =>
    let tN := thetaN n i
    { pos := ⟨ringRadius * tr.cos2pi tN, y, ringRadius * tr.sin2pi tN⟩
      u := jsMod1 (tN + 1/2)
      v := 1 - phiN ring
      ring := ring
      idx := i })

/-- `generateCubePositions`: the ordered concatenation of all rings. -/
def generateCubePositions (tr : TrigOracle) (radius : ℚ) : List GenCell :=
  (List.range rings).flatMap (ringCells tr radius)

/-!
### Texture update scheduler — `updateCubeTextures` (HomePage.js lines 476–579)
-/

/-- The per-cube data the scheduler scores: the dot product of the cube's
outward normal with the direction to the camera (`facingDot`) and the
distance from the cube to the camera (`distanceToCamera`), both computed in
the group's local frame. -/
structure CubePrio where
  idx : ℕ
  facingDot : ℚ
  distanceToCamera : ℚ
deriving DecidableEq, Repr

/-- The composite priority of the source:
`facingScore * 0.7 + distanceScore * 0.3` with
`facingScore = max 0 facingDot` and
`distanceScore = 1 / (1 + distanceToCamera * 0.5)`. -/
def priorityOf (c : CubePrio) : ℚ :=
  let facingScore := max 0 c.facingDot
  let distanceScore := 1 / (1 + c.distanceToCamera * (1/2))
  facingScore * (7/10) + distanceScore * (3/10)

/-- The priority the specification text describes: `0.7 × facing-alignment +
0.3 × (inverse of distance to camera)`.  Modelled from the spec wording to
compare with `priorityOf`; it differs from the source. -/
def priorityClaimed (c : CubePrio) : ℚ :=
  max 0 c.facingDot * (7/10) + (1 / c.distanceToCamera) * (3/10)

/-- Comparison used to sort: `b` may follow `a` when `a`'s priority is at
least `b`'s (the source sorts with the comparator
`(a, b) => b.priority - a.priority`, i.e. descending priority). -/
def prioGE (a b : CubePrio) : Prop := priorityOf b ≤ priorityOf a

instance : DecidableRel prioGE := fun a b =>
  inferInstanceAs (Decidable (priorityOf b ≤ priorityOf a))

instance : IsTotal CubePrio prioGE := ⟨fun a b => le_total (priorityOf b) (priorityOf a)⟩

instance : IsTrans CubePrio prioGE := ⟨fun _ _ _ h1 h2 => le_trans h2 h1⟩

/-- `cubesWithPriority.sort((a, b) => b.priority - a.priority)`: a
permutation of the input sorted by descending priority. -/
def sortByPriority (l : List CubePrio) : List CubePrio := l.insertionSort prioGE

/-- `batchSize = 25` of `updateCubeTextures`. -/
def batchSize : ℕ := 25

/-- Split the sorted list into the per-animation-frame batches processed by
`processBatch`: each `requestAnimationFrame` tick handles the next slice of
at most `batchSize` cells until none remain. -/
def chunkBatches (l : List CubePrio) : List (List CubePrio) :=
  if l = [] then [] else l.take batchSize :: chunkBatches (l.drop batchSize)
termination_by l.length
decreasing_by
  rename_i h
  have hl : 0 < l.length := List.length_pos.mpr h
  simpa using Nat.sub_lt hl (by decide)

/-- The batches of one `updateCubeTextures` run. -/
def batches (l : List CubePrio) : List (List CubePrio) := chunkBatches (sortByPriority l)

/-- A front-face material as the scheduler sees it: the texture generation
it holds, its UV transform (`repeat` and `offset`) and its opacity. -/
structure FrontMaterial where
  tex : ℕ
  repeatUV : ℚ × ℚ
  offsetUV : ℚ × ℚ
  opacity : ℚ
deriving DecidableEq, Repr

/-- Events emitted while updating one cell's front material. -/
inductive TexEvent where
  | disposeTexture (old : ℕ)
  | disposeMaterial (old : ℕ)
  | install (new : ℕ)
deriving DecidableEq, Repr

/-- `uvSize = 0.055` of `createCubeMaterials` and `updateCubeTextures`. -/
def uvSize : ℚ := 55/1000

/-- The per-cell body of `processBatch` (lines 530–564): dispose the old
texture clone, build a new material with the old opacity, give it a fresh
clone of the shared texture with this cell's UV window
(`repeat = (uvSize, uvSize)`, `offset = (u·(1−uvSize), v·(1−uvSize))`),
dispose the old material, install the new one.  Returns the new material and
the ordered event list. -/
def updateCellTexture (newTex : ℕ) (uv : ℚ × ℚ) (old : FrontMaterial) :
    FrontMaterial × List TexEvent :=
  let fresh : FrontMaterial :=
    { tex := newTex
      repeatUV := (uvSize, uvSize)
      offsetUV := (uv.1 * (1 - uvSize), uv.2 * (1 - uvSize))
      opacity := old.opacity }
  (fresh, [TexEvent.disposeTexture old.tex, TexEvent.disposeMaterial old.tex,
           TexEvent.install newTex])

/-!
### Texture switching — `switchTexture` (HomePage.js lines 1486–1544)
-/

/-- The refs `switchTexture` reads and writes: `lastSwitchTimeRef`,
`videoPoolRef` (each entry with its `isReady` bit), `failedVideosRef`,
`currentVideoPathRef` and `isLoadingTextureRef`. -/
structure SwitchState where
  lastSwitchTime : ℚ
  pool : List (String × Bool)
  failed : List String
  current : Option String
  isLoadingTexture : Bool
deriving DecidableEq, Repr

/-- What one call of `switchTexture` does. -/
inductive SwitchResult where
  /-- `mediaList` was empty; nothing happened. -/
  | noop
  /-- The call returned inside the 300 ms debounce window (or while a
  texture load was flagged); the request is discarded. -/
  | dropped
  /-- No preloaded video was ready: fall back to `loadAndApplyTexture` on a
  randomly chosen non-blacklisted video. -/
  | fallbackLoad (v : String)
  /-- No preloaded video was ready and every video is blacklisted: build the
  fallback sphere. -/
  | fallbackSphere
  /-- A preloaded video was ready: instant switch to it. -/
  | instantSwitch (v : String)
deriving DecidableEq, Repr

/-- Whether the call started a texture switch (instant or via the fallback
load path). -/
def startsSwitch : SwitchResult → Bool
  | SwitchResult.instantSwitch _ => true
  | SwitchResult.fallbackLoad _ => true
  | _ => false

/-- `switchTexture`: the debounce guard, then either the ready-path instant
switch (which records `lastSwitchTimeRef = now` and picks a ready video
different from the current one when possible) or the fallback
load / fallback sphere path (which records nothing).  `now` models
`Date.now()`; `rnd` resolves the `Math.random()` index choices. -/
def switchTexture (mediaList : List String) (now : ℚ) (rnd : ℕ)
    (st : SwitchState) : SwitchState × SwitchResult :=
  if mediaList.length = 0 then (st, SwitchResult.noop)
  else if now - st.lastSwitchTime < 300 ∨ st.isLoadingTexture then
    (st, SwitchResult.dropped)
  else
    let readyVideos := (st.pool.filter (fun e => e.2)).map (fun e => e.1)
    if hr : readyVideos = [] then
      let available := mediaList.filter (fun v => ¬ st.failed.contains v)
      if ha : available = [] then (st, SwitchResult.fallbackSphere)
      else
        let v := available.getD (rnd % available.length) (available.head ha)
        (st, SwitchResult.fallbackLoad v)
    else
      let st1 := { st with lastSwitchTime := now }
      let selected :=
        if readyVideos.length = 1 then readyVideos.head hr
        else
          let otherVideos := readyVideos.filter (fun v => some v ≠ st.current)
          if ho : otherVideos = [] then
            readyVideos.getD (rnd % readyVideos.length) (readyVideos.head hr)
          else otherVideos.getD (rnd % otherVideos.length) (otherVideos.head ho)
      ({ st1 with current := some selected }, SwitchResult.instantSwitch selected)

/-!
### Media error handling — `handleError` inside `loadAndApplyTexture`
(HomePage.js lines 1301–1383)
-/

/-- What the error handler schedules after a failed video load. -/
inductive ErrorAction where
  /-- `mediaList` has exactly one entry and it is the failing one: retry the
  same file after the given delay in ms (the source uses 1000). -/
  | retrySame (delayMs : ℚ) (v : String)
  /-- Try another not-blacklisted video after the given delay in ms (the
  source uses 100). -/
  | retryOther (delayMs : ℚ) (v : String)
  /-- Every video is blacklisted: build the fallback sphere. -/
  | fallbackSphere
deriving DecidableEq, Repr

/-- `MediaError.code` values: 1 aborted, 2 network, 3 decode,
4 source-not-supported.  `none` models an error event with no
`video.error` object (e.g. the load-timeout path). -/
def mediaErrNetwork : ℕ := 2

/-- The error handler of `loadAndApplyTexture`: blacklist only when the
`MediaError` code is 3 or 4 and `video.networkState === 3`; if the media
list holds exactly the failing file, schedule an unconditional retry of the
same file after 1000 ms; otherwise pick a random remaining video (100 ms
delay) or, with none left, build the fallback sphere.  Returns the new
blacklist and the scheduled action. -/
def handleVideoError (mediaList : List String) (failed : List String)
    (filePath : String) (errCode : Option ℕ) (networkState : ℕ) (rnd : ℕ) :
    List String × ErrorAction :=
  let shouldBlacklist : Bool :=
    match errCode with
    | some c => decide (c = 3 ∨ c = 4) && decide (networkState = 3)
    | none => false
  let failed1 := if shouldBlacklist then filePath :: failed else failed
  if mediaList.length = 1 ∧ mediaList.head? = some filePath then
    (failed1, ErrorAction.retrySame 1000 filePath)
  else
    let remainingVideos := mediaList.filter (fun v => ¬ failed1.contains v)
    if hr : remainingVideos = [] then (failed1, ErrorAction.fallbackSphere)
    else
      (failed1, ErrorAction.retryOther 100
        (remainingVideos.getD (rnd % remainingVideos.length) (remainingVideos.head hr)))

/-!
### Interaction traces

`Reaches piQ a c` says the cell state `c` arises from `a` by some sequence of
the three operations the engine performs on a cell: a `handleCubeFlip` visit
(hover, drag-free frame — covering both activation and the trail trigger), a
`resetTrailStates` visit (pointer left the collision sphere), and a frame of
`updateCubeAnimations`.  Each constructor carries the facts the source
guarantees about the float quantities that the embedding takes as parameters:
distances and speeds are nonnegative, the frame delta time is nonnegative
(the render loop clamps it to `[0, 0.033]`), and the parameters standing for
`originalPosition.length()` and `targetOffset.length()` square to the
corresponding squared norms. -/
inductive Reaches (piQ : ℚ) : CubeData → CubeData → Prop where
  | refl {c : CubeData} : Reaches piQ c c
  | flip {a b : CubeData} (now dist speed npos : ℚ) :
      Reaches piQ a b → 0 ≤ dist → 0 ≤ speed → 0 < npos →
      npos ^ 2 = b.originalPosition.normSq →
      Reaches piQ a (handleCubeFlipCell piQ now dist speed npos b)
  | reset {a b : CubeData} (lenTO : ℚ) :
      Reaches piQ a b → 0 ≤ lenTO → lenTO ^ 2 = b.targetOffset.normSq →
      Reaches piQ a (resetTrailStatesCell piQ lenTO b)
  | update {a b : CubeData} (sinPi : ℚ → ℚ) (dt : ℚ) :
      Reaches piQ a b → 0 ≤ dt →
      Reaches piQ a (updateCubeAnimationsCell piQ sinPi dt b)

/-- Number of the lifecycle flags `isInTrail`, `isInReturn`, `isExploding`
that are set. -/
def flagCount (c : CubeData) : ℕ :=
  (if c.isInTrail then 1 else 0) + (if c.isInReturn then 1 else 0) +
    (if c.isExploding then 1 else 0)

/-- The inductive invariant of the per-cell animation model.  It contains
the bounds the specification asserts (`currentOpacity`; `flipProgress`,
which the explode path drives up to `2`) together with the auxiliary bounds
needed to propagate them, and the mutual exclusion of the lifecycle
flags. -/
structure Inv (piQ : ℚ) (c : CubeData) : Prop where
  opacLo : 0 ≤ c.currentOpacity
  opacHi : c.currentOpacity ≤ 1
  topacLo : 0 ≤ c.targetOpacity
  topacHi : c.targetOpacity ≤ 1
  fpLo : 0 ≤ c.flipProgress
  fpHi : c.flipProgress ≤ 2
  tfpLo : 0 ≤ c.targetFlipProgress
  tfpHi : c.targetFlipProgress ≤ 1
  angLo : 0 ≤ c.currentRotationAngle
  angHi : c.currentRotationAngle ≤ 2 * piQ
  maxRotLo : 0 ≤ c.maxRotationAngle
  maxRotHi : c.maxRotationAngle ≤ (3/5) * piQ
  expILo : 0 ≤ c.explodeIntensity
  expIHi : c.explodeIntensity ≤ 1
  trILo : 0 ≤ c.trailIntensity
  trIHi : c.trailIntensity ≤ 1
  expTimer : 0 ≤ c.explodeTimer
  trTimer : 0 ≤ c.trailTimer
  toffSq : c.targetOffset.normSq ≤ maxFloatHeight ^ 2
  flags : flagCount c ≤ 1

/-!
### Concrete demonstration values used by witnesses and counterexamples
-/

/-- The unit vector `(0, 0, 1)`: a cell position whose float norm is the
exact rational `1`. -/
def unitZ : V3 := ⟨0, 0, 1⟩

/-- A sine stand-in that is identically `0` (trivially inside `[0,1]` on
`[0,1]`). -/
def szero : ℚ → ℚ := fun _ => 0

/-- A trig oracle with zero sine/cosine stand-ins and `3` for `Math.PI`;
only used to evaluate the geometry on concrete inputs. -/
def trZero : TrigOracle := ⟨fun _ => 0, fun _ => 0, fun _ => 0, fun _ => 0, 3⟩

/-- A cell just hit by a fast pointer sweep: `handleCubeFlip` at distance
`0.1` with smoothed speed `3.6` (twice the threshold), which starts the
explode effect at intensity `1`. -/
def cExplode0 : CubeData := handleCubeFlipCell 3 0 (1/10) (18/5) 1 (initialCube unitZ)

/-- One animation frame at the maximal clamped frame time `0.033 s`, with
`3` standing for `Math.PI` and the zero sine stand-in. -/
def frame33 (c : CubeData) : CubeData := updateCubeAnimationsCell 3 szero (33/1000) c

/-- The cell of `cExplode0` after seven frames of `updateCubeAnimations` at
the maximal clamped frame time `0.033 s` (explode timer `231 ms`, still
inside the `250 ms` explode window). -/
def cExplode7 : CubeData :=
  frame33 (frame33 (frame33 (frame33 (frame33 (frame33 (frame33 cExplode0))))))

/-- A cell hovered at distance `0` (cell under the pointer). -/
def cHover0 : CubeData := handleCubeFlipCell 3 0 0 0 1 (initialCube unitZ)

/-- The hovered cell after one `0.033 s` animation frame. -/
def cHover1 : CubeData := updateCubeAnimationsCell 3 szero (33/1000) cHover0

/-- Media identifier for the single-video scenarios. -/
def onlyVid : String := "only.mp4"

/-- Media identifiers for the switching scenarios. -/
def vidA : String := "a.mp4"

/-- Second media identifier for the switching scenarios. -/
def vidB : String := "b.mp4"

/-- A switch state with two preloaded, ready videos and an empty blacklist,
before any accepted switch. -/
def stReady : SwitchState :=
  { lastSwitchTime := 0
    pool := [(vidA, true), (vidB, true)]
    failed := []
    current := none
    isLoadingTexture := false }

/-- A switch state whose preload pool is empty (no video ready). -/
def stEmptyPool : SwitchState :=
  { lastSwitchTime := 0
    pool := []
    failed := []
    current := none
    isLoadingTexture := false }

/-- A cube scored by the scheduler at distance `1` from the camera with
facing dot `0`; on it the source score and the score the specification
states differ. -/
def cpDemo : CubePrio := { idx := 0, facingDot := 0, distanceToCamera := 1 }

/-- A small list of scored cubes used to evaluate the scheduler on a
concrete input. -/
def cpList : List CubePrio :=
  [ { idx := 0, facingDot := 0, distanceToCamera := 1 }
  , { idx := 1, facingDot := 1, distanceToCamera := 2 }
  , { idx := 2, facingDot := 1/2, distanceToCamera := 3 } ]

/-- A one-element scored-cube list. -/
def cpOne : List CubePrio := [cpDemo]

/-- A front material holding texture generation `3` with a full UV window. -/
def matDemo : FrontMaterial := { tex := 3, repeatUV := (1, 1), offsetUV := (0, 0), opacity := 1 }

/-- The switch state after the accepted instant switch of the witness run:
`lastSwitchTimeRef` recorded, current video `vidA`. -/
def stAfterA : SwitchState :=
  { lastSwitchTime := 1000
    pool := [(vidA, true), (vidB, true)]
    failed := []
    current := some vidA
    isLoadingTexture := false }

/-- A sine stand-in that is identically `1/2` (inside `[0,1]`). -/
def shalf : ℚ → ℚ := fun _ => 1/2

/-- A cell mid-explosion: intensity `1`, outward direction `(0,0,1)`,
explode timer at `100 ms`. -/
def cExpMid : CubeData :=
  { initialCube unitZ with
    isExploding := true
    explodeDirection := unitZ
    explodeIntensity := 1
    explodeTimer := 100 }

/-- A cell near the end of its explosion: explode timer at `240 ms`, so the
next maximal frame crosses the `250 ms` window. -/
def cExpLate : CubeData :=
  { initialCube unitZ with
    isExploding := true
    explodeDirection := unitZ
    explodeIntensity := 1
    explodeTimer := 240 }

/-!
## Theorems

General lemmas about the vector operations and the easing functions, the
invariant-preservation lemmas, and one theorem (plus witness or
counterexample where required) per claim.
-/

theorem V3.normSq_nonneg (a : V3) : 0 ≤ a.normSq := by
  have hx := mul_self_nonneg a.x
  have hy := mul_self_nonneg a.y
  have hz := mul_self_nonneg a.z
  unfold normSq; linarith

theorem V3.normSq_smul (s : ℚ) (a : V3) : (V3.smul s a).normSq = s ^ 2 * a.normSq := by
  unfold normSq smul; ring

theorem V3.normSq_zero : V3.zero.normSq = 0 := by unfold normSq zero; norm_num

theorem V3.normSq_normalizeW {n : ℚ} (v : V3) (hn : n ≠ 0)
    (hsq : n ^ 2 = v.normSq) : (V3.normalizeW n v).normSq = 1 := by
  unfold normSq normalizeW at *
  field_simp
  linarith [hsq]

/-- The real half-sine envelope `sin(p·π)` lies in `[0,1]` for `p ∈ [0,1]`:
this is the fact the hypotheses on the `sinPi` parameter of `explodeStep`
encode about `Math.sin(explodeProgress * Math.PI)`. -/
theorem halfSine_bounds (p : ℝ) (h0 : 0 ≤ p) (h1 : p ≤ 1) :
    0 ≤ Real.sin (p * Real.pi) ∧ Real.sin (p * Real.pi) ≤ 1 := by
  constructor
  · exact Real.sin_nonneg_of_nonneg_of_le_pi (by positivity)
      (by nlinarith [Real.pi_pos])
  · exact Real.sin_le_one _

/-- One easing step `a + sign(b−a) · min |b−a| step` stays between `a` and
`b` (stated via `min`/`max`) whenever `step ≥ 0`. -/
theorem moveToward_mem {a b step : ℚ} (hstep : 0 ≤ step) :
    min a b ≤ a + sgnQ (b - a) * min |b - a| step ∧
      a + sgnQ (b - a) * min |b - a| step ≤ max a b := by
  rcases lt_trichotomy (b - a) 0 with h | h | h
  · have hs : sgnQ (b - a) = -1 := by
      unfold sgnQ
      rw [if_neg (by linarith), if_pos h]
    have habs : |b - a| = a - b := by rw [abs_of_neg h]; ring
    rw [hs, habs]
    have hmin1 : min (a - b) step ≤ a - b := min_le_left _ _
    have hmin2 : 0 ≤ min (a - b) step := le_min (by linarith) hstep
    constructor
    · have : b ≤ a + -1 * min (a - b) step := by linarith
      exact le_trans (min_le_right a b) this
    · have : a + -1 * min (a - b) step ≤ a := by linarith
      exact le_trans this (le_max_left a b)
  · have hz : sgnQ (b - a) = 0 := by
      unfold sgnQ
      rw [if_neg (by linarith), if_neg (by linarith)]
    rw [hz]
    constructor
    · simp only [mul_zero, zero_mul, add_zero]
      exact min_le_left a b
    · simp only [mul_zero, zero_mul, add_zero]
      exact le_max_left a b
  · have hs : sgnQ (b - a) = 1 := by unfold sgnQ; rw [if_pos h]
    have habs : |b - a| = b - a := abs_of_pos h
    rw [hs, habs]
    have hmin1 : min (b - a) step ≤ b - a := min_le_left _ _
    have hmin2 : 0 ≤ min (b - a) step := le_min (by linarith) hstep
    constructor
    · have : a ≤ a + 1 * min (b - a) step := by linarith
      exact le_trans (min_le_left a b) this
    · have : a + 1 * min (b - a) step ≤ b := by linarith
      exact le_trans this (le_max_right a b)

/-- The cubic ease-out `1 − (1−p)³` lies in `[0,1]` for `p ∈ [0,1]`. -/
theorem easeOutCube_bounds {p : ℚ} (h0 : 0 ≤ p) (h1 : p ≤ 1) :
    0 ≤ 1 - (1 - p) ^ 3 ∧ 1 - (1 - p) ^ 3 ≤ 1 := by
  constructor <;> nlinarith [sq_nonneg (1 - p), sq_nonneg p]

/-- The piecewise ease-in-out of `returnStep` lies in `[0,1]` for
`p ∈ [0,1]`. -/
theorem easeInOut_bounds {p : ℚ} (h0 : 0 ≤ p) (h1 : p ≤ 1) :
    0 ≤ (if p < 1/2 then 2 * p * p else 1 - (-2 * p + 2) ^ 3 / 2) ∧
      (if p < 1/2 then 2 * p * p else 1 - (-2 * p + 2) ^ 3 / 2) ≤ 1 := by
  split
  · rename_i hp
    constructor <;> nlinarith
  · rename_i hp
    constructor <;> nlinarith [sq_nonneg (-2 * p + 2), sq_nonneg p]

/-- Unfolding of `|q|` on `ℚ` into a conditional, used to evaluate the
easing steps on concrete inputs. -/
theorem absQ_def (q : ℚ) : |q| = if q < 0 then -q else q := by
  rcases lt_or_ge q 0 with h | h
  · rw [if_pos h, abs_of_neg h]
  · rw [if_neg (not_lt.mpr h), abs_of_nonneg h]

/-!
### Invariant preservation
-/

theorem inv_initialCube {piQ : ℚ} (hpi : 0 < piQ) (p : V3) : Inv piQ (initialCube p) := by
  refine ⟨by norm_num [initialCube], by norm_num [initialCube], by norm_num [initialCube],
    by norm_num [initialCube], by norm_num [initialCube], by norm_num [initialCube],
    by norm_num [initialCube], by norm_num [initialCube], by norm_num [initialCube],
    by simp only [initialCube]; linarith, by norm_num [initialCube],
    by simp only [initialCube]; linarith, by norm_num [initialCube],
    by norm_num [initialCube], by norm_num [initialCube], by norm_num [initialCube],
    by norm_num [initialCube], by norm_num [initialCube], ?_, ?_⟩
  · show V3.zero.normSq ≤ maxFloatHeight ^ 2
    rw [V3.normSq_zero]
    norm_num [maxFloatHeight]
  · simp [flagCount, initialCube]

theorem inv_applyUpdate {piQ : ℚ} {c : CubeData} (hpi : 0 < piQ) (h : Inv piQ c) :
    Inv piQ (applyUpdate piQ c) := by
  refine ⟨h.opacLo, h.opacHi, h.topacLo, h.topacHi, ?_, ?_, h.tfpLo, h.tfpHi,
    h.angLo, h.angHi, h.maxRotLo, h.maxRotHi, h.expILo, h.expIHi, h.trILo, h.trIHi,
    h.expTimer, h.trTimer, h.toffSq, h.flags⟩
  · exact div_nonneg h.angLo hpi.le
  · show c.currentRotationAngle / piQ ≤ 2
    rw [div_le_iff₀ hpi]
    linarith [h.angHi]

theorem inv_flip {piQ now dist speed npos : ℚ} {c : CubeData} (hpi : 0 < piQ)
    (h : Inv piQ c) (hd : 0 ≤ dist) (hs : 0 ≤ speed) (hn : 0 < npos)
    (hsq : npos ^ 2 = c.originalPosition.normSq) :
    Inv piQ (handleCubeFlipCell piQ now dist speed npos c) := by
  unfold handleCubeFlipCell
  dsimp only
  split
  · rename_i hlt
    have h4 : dist / (1/4) = 4 * dist := by ring
    have hfadeLo : (0:ℚ) ≤ 1 - dist / (1/4) := by rw [h4]; linarith
    have hfadeHi : 1 - dist / (1/4) ≤ 1 := by rw [h4]; linarith
    split
    · rename_i hcond
      refine ⟨h.opacLo, h.opacHi, by norm_num, by norm_num, h.fpLo, h.fpHi,
        h.tfpLo, h.tfpHi, h.angLo, h.angHi, h.maxRotLo, h.maxRotHi, ?_, ?_,
        hfadeLo, hfadeHi, le_refl 0, le_refl 0, h.toffSq, ?_⟩
      · exact le_min (by norm_num) (div_nonneg hs (by norm_num [mouseSpeedThreshold]))
      · exact min_le_left _ _
      · simp [flagCount]
    · split
      · rename_i hcond hexp
        refine ⟨h.opacLo, h.opacHi, by norm_num, by norm_num, h.fpLo, h.fpHi,
          ?_, ?_, h.angLo, h.angHi, h.maxRotLo, h.maxRotHi, h.expILo, h.expIHi,
          hfadeLo, hfadeHi, h.expTimer, le_refl 0, ?_, ?_⟩
        · exact le_trans (by norm_num) (le_max_left _ _)
        · exact max_le (by norm_num) hfadeHi
        · show (V3.smul (maxFloatHeight * (1 - dist / (1/4)))
            (V3.normalizeW npos c.originalPosition)).normSq ≤ maxFloatHeight ^ 2
          rw [V3.normSq_smul, V3.normSq_normalizeW _ hn.ne' hsq, mul_one,
            maxFloatHeight]
          rw [h4]
          nlinarith
        · simp [flagCount, hexp]
      · rename_i hcond hexp
        refine ⟨h.opacLo, h.opacHi, h.topacLo, h.topacHi, h.fpLo, h.fpHi,
          h.tfpLo, h.tfpHi, h.angLo, h.angHi, h.maxRotLo, h.maxRotHi, h.expILo,
          h.expIHi, hfadeLo, hfadeHi, h.expTimer, le_refl 0, h.toffSq, ?_⟩
        cases hE : c.isExploding <;> simp [flagCount, hE]
  · split
    · rename_i hcond
      obtain ⟨h1, h2, h3, h4⟩ := hcond
      refine ⟨h.opacLo, h.opacHi, h.topacLo, h.topacHi, h.fpLo, h.fpHi,
        h.tfpLo, h.tfpHi, ?_, ?_, ?_, ?_, h.expILo, h.expIHi, h.trILo, h.trIHi,
        h.expTimer, le_refl 0, h.toffSq, ?_⟩
      · exact mul_nonneg h.fpLo hpi.le
      · show c.flipProgress * piQ ≤ 2 * piQ
        exact mul_le_mul_of_nonneg_right h.fpHi hpi.le
      · show 0 ≤ (3/5) * piQ * c.trailIntensity
        nlinarith [h.trILo, hpi.le]
      · show (3/5) * piQ * c.trailIntensity ≤ (3/5) * piQ
        nlinarith [h.trIHi, h.trILo, hpi.le]
      · simp [flagCount, h3]
    · exact h

theorem inv_reset {piQ lenTO : ℚ} {c : CubeData} (hpi : 0 < piQ)
    (h : Inv piQ c) (hl : 0 ≤ lenTO) (hsq : lenTO ^ 2 = c.targetOffset.normSq) :
    Inv piQ (resetTrailStatesCell piQ lenTO c) := by
  unfold resetTrailStatesCell
  dsimp only
  split
  · rename_i hcond
    obtain ⟨h1, h2, h3, h4⟩ := hcond
    have hlenHi : lenTO ≤ maxFloatHeight := by
      have hts := h.toffSq
      rw [← hsq] at hts
      rw [maxFloatHeight] at hts ⊢
      nlinarith [hts, hl]
    have htiLo : 0 ≤ max c.targetFlipProgress (lenTO / maxFloatHeight) :=
      le_trans h.tfpLo (le_max_left _ _)
    have htiHi : max c.targetFlipProgress (lenTO / maxFloatHeight) ≤ 1 := by
      refine max_le h.tfpHi ?_
      rw [div_le_one (by norm_num [maxFloatHeight])]
      exact hlenHi
    refine ⟨?_, ?_, h.topacLo, h.topacHi, h.fpLo, h.fpHi, h.tfpLo, h.tfpHi,
      ?_, ?_, ?_, ?_, h.expILo, h.expIHi, htiLo, htiHi, h.expTimer, le_refl 0,
      ?_, ?_⟩
    · show (0:ℚ) ≤ if c.currentOpacity < 92/100 then 92/100 else c.currentOpacity
      split
      · norm_num
      · exact h.opacLo
    · show (if c.currentOpacity < 92/100 then (92:ℚ)/100 else c.currentOpacity) ≤ 1
      split
      · norm_num
      · exact h.opacHi
    · exact mul_nonneg h.fpLo hpi.le
    · show c.flipProgress * piQ ≤ 2 * piQ
      exact mul_le_mul_of_nonneg_right h.fpHi hpi.le
    · show 0 ≤ (3/5) * piQ * max c.targetFlipProgress (lenTO / maxFloatHeight)
      nlinarith [htiLo, hpi.le]
    · show (3/5) * piQ * max c.targetFlipProgress (lenTO / maxFloatHeight) ≤ (3/5) * piQ
      nlinarith [htiHi, htiLo, hpi.le]
    · show V3.zero.normSq ≤ maxFloatHeight ^ 2
      rw [V3.normSq_zero]
      norm_num [maxFloatHeight]
    · simp [flagCount, h4]
  · exact h

theorem inv_explodeStep {piQ dt : ℚ} {sinPi : ℚ → ℚ} {c : CubeData} (hpi : 0 < piQ)
    (hdt : 0 ≤ dt) (h : Inv piQ c) (hx : c.isExploding = true) :
    Inv piQ (explodeStep piQ sinPi dt c) := by
  have ht0 : 0 ≤ c.explodeTimer + dt * 1000 := by linarith [h.expTimer]
  unfold explodeStep
  dsimp only
  split
  · rename_i hlt
    have hp0 : 0 ≤ (c.explodeTimer + dt * 1000) / explodeDuration :=
      div_nonneg ht0 (by norm_num [explodeDuration])
    have hp1 : (c.explodeTimer + dt * 1000) / explodeDuration ≤ 1 := by
      rw [div_le_one (by norm_num [explodeDuration])]
      linarith [hlt]
    have he := easeOutCube_bounds hp0 hp1
    apply inv_applyUpdate hpi
    refine ⟨?_, ?_, h.topacLo, h.topacHi, h.fpLo, h.fpHi, h.tfpLo, h.tfpHi,
      ?_, ?_, h.maxRotLo, h.maxRotHi, h.expILo, h.expIHi, h.trILo, h.trIHi,
      ht0, h.trTimer, h.toffSq, h.flags⟩
    · show (0:ℚ) ≤ 85/100 + (1 - (c.explodeTimer + dt * 1000) / explodeDuration) * (15/100)
      linarith
    · show (85:ℚ)/100 + (1 - (c.explodeTimer + dt * 1000) / explodeDuration) * (15/100) ≤ 1
      linarith
    · show 0 ≤ (1 - (1 - (c.explodeTimer + dt * 1000) / explodeDuration) ^ 3) * piQ * 2 *
        c.explodeIntensity
      exact mul_nonneg (mul_nonneg (mul_nonneg he.1 hpi.le) (by norm_num)) h.expILo
    · show (1 - (1 - (c.explodeTimer + dt * 1000) / explodeDuration) ^ 3) * piQ * 2 *
        c.explodeIntensity ≤ 2 * piQ
      have hEi : (1 - (1 - (c.explodeTimer + dt * 1000) / explodeDuration) ^ 3) *
          c.explodeIntensity ≤ 1 := mul_le_one₀ he.2 h.expILo h.expIHi
      have hEi0 : 0 ≤ (1 - (1 - (c.explodeTimer + dt * 1000) / explodeDuration) ^ 3) *
          c.explodeIntensity := mul_nonneg he.1 h.expILo
      nlinarith [hEi, hEi0, hpi.le]
  · rename_i hge
    have hfl : c.isInTrail = false ∧ c.isInReturn = false := by
      have hf := h.flags
      cases htr : c.isInTrail <;> cases hre : c.isInReturn <;>
        simp_all [flagCount, hx]
    refine ⟨h.opacLo, h.opacHi, by norm_num, by norm_num, h.fpLo, h.fpHi,
      h.tfpLo, h.tfpHi, h.angLo, h.angHi, h.maxRotLo, h.maxRotHi, h.expILo,
      h.expIHi, h.trILo, h.trIHi, ht0, le_refl 0, h.toffSq, ?_⟩
    simp [flagCount, hfl.1]

theorem inv_trailStep {piQ dt : ℚ} {c : CubeData} (hpi : 0 < piQ)
    (hdt : 0 ≤ dt) (h : Inv piQ c) (hx : c.isInTrail = true) :
    Inv piQ (trailStep piQ dt c) := by
  have ht0 : 0 ≤ c.trailTimer + dt * 1000 := by linarith [h.trTimer]
  unfold trailStep
  dsimp only
  split
  · rename_i hlt
    have hp0 : 0 ≤ (c.trailTimer + dt * 1000) / trailDuration :=
      div_nonneg ht0 (by norm_num [trailDuration])
    have hp1 : (c.trailTimer + dt * 1000) / trailDuration ≤ 1 := by
      rw [div_le_one (by norm_num [trailDuration])]
      linarith [hlt]
    have hv : 0 ≤ initialTrailVelocity * c.trailIntensity *
        (1 - (c.trailTimer + dt * 1000) / trailDuration) := by
      have := h.trILo
      rw [initialTrailVelocity]
      nlinarith
    have hto1 : (0:ℚ) ≤ 92/100 + (c.trailTimer + dt * 1000) / trailDuration * (8/100) := by
      linarith
    have hto2 : (92:ℚ)/100 + (c.trailTimer + dt * 1000) / trailDuration * (8/100) ≤ 1 := by
      linarith
    split
    · rename_i hcap
      apply inv_applyUpdate hpi
      exact ⟨h.opacLo, h.opacHi, hto1, hto2, h.fpLo, h.fpHi, h.tfpLo, h.tfpHi,
        h.maxRotLo, le_trans h.maxRotHi (by linarith), h.maxRotLo, h.maxRotHi,
        h.expILo, h.expIHi, h.trILo, h.trIHi, h.expTimer, ht0, h.toffSq, h.flags⟩
    · rename_i hcap
      push_neg at hcap
      apply inv_applyUpdate hpi
      refine ⟨h.opacLo, h.opacHi, hto1, hto2, h.fpLo, h.fpHi, h.tfpLo, h.tfpHi,
        ?_, ?_, h.maxRotLo, h.maxRotHi, h.expILo, h.expIHi, h.trILo, h.trIHi,
        h.expTimer, ht0, h.toffSq, h.flags⟩
      · nlinarith [h.angLo, hv, hdt]
      · exact le_trans (le_trans hcap h.maxRotHi) (by linarith)
  · rename_i hge
    have hfl : c.isInReturn = false ∧ c.isExploding = false := by
      have hf := h.flags
      cases hre : c.isInReturn <;> cases hex : c.isExploding <;>
        simp_all [flagCount, hx]
    refine ⟨h.opacLo, h.opacHi, h.topacLo, h.topacHi, h.fpLo, h.fpHi,
      h.tfpLo, h.tfpHi, h.angLo, h.angHi, h.maxRotLo, h.maxRotHi, h.expILo,
      h.expIHi, h.trILo, h.trIHi, h.expTimer, le_refl 0, h.toffSq, ?_⟩
    simp [flagCount, hfl.2]

theorem inv_returnStep {piQ dt : ℚ} {c : CubeData} (hpi : 0 < piQ)
    (hdt : 0 ≤ dt) (h : Inv piQ c) (hx : c.isInReturn = true) :
    Inv piQ (returnStep piQ dt c) := by
  have ht0 : 0 ≤ c.trailTimer + dt * 1000 := by linarith [h.trTimer]
  have hfl : c.isInTrail = false ∧ c.isExploding = false := by
    have hf := h.flags
    cases htr : c.isInTrail <;> cases hex : c.isExploding <;>
      simp_all [flagCount, hx]
  unfold returnStep
  dsimp only
  split
  · rename_i hge
    apply inv_applyUpdate hpi
    refine ⟨by norm_num, by norm_num, by norm_num, by norm_num, by norm_num,
      by norm_num, le_refl 0, by norm_num, le_refl 0,
      by show (0:ℚ) ≤ 2 * piQ; linarith, le_refl 0,
      by show (0:ℚ) ≤ (3/5) * piQ; linarith, h.expILo, h.expIHi, le_refl 0,
      by norm_num, h.expTimer, le_refl 0, ?_, ?_⟩
    · show V3.zero.normSq ≤ maxFloatHeight ^ 2
      rw [V3.normSq_zero]
      norm_num [maxFloatHeight]
    · simp [flagCount, hfl.1, hfl.2]
  · rename_i hlt
    push_neg at hlt
    have hp0 : 0 ≤ (c.trailTimer + dt * 1000) / returnDuration :=
      div_nonneg ht0 (by norm_num [returnDuration])
    have hp1 : (c.trailTimer + dt * 1000) / returnDuration ≤ 1 := le_of_lt hlt
    have he := easeInOut_bounds hp0 hp1
    apply inv_applyUpdate hpi
    refine ⟨h.opacLo, h.opacHi, ?_, ?_, h.fpLo, h.fpHi, h.tfpLo, h.tfpHi,
      ?_, ?_, h.maxRotLo, h.maxRotHi, h.expILo, h.expIHi, h.trILo, h.trIHi,
      h.expTimer, ht0, h.toffSq, h.flags⟩
    · nlinarith [h.opacLo, h.opacHi, he.1, he.2]
    · nlinarith [h.opacLo, h.opacHi, he.1, he.2]
    · nlinarith [h.maxRotLo, he.1, he.2]
    · nlinarith [h.maxRotLo, h.maxRotHi, he.1, he.2, hpi.le]

theorem inv_flipEase {piQ dt : ℚ} {c : CubeData} (hpi : 0 < piQ)
    (hdt : 0 ≤ dt) (h : Inv piQ c) : Inv piQ (flipEase piQ dt c).1 := by
  unfold flipEase
  dsimp only
  split
  · rename_i hgt
    have hstep : (0:ℚ) ≤ 1 / (flipDuration / 1000) * dt := by
      rw [flipDuration]
      norm_num
      linarith
    have hm := moveToward_mem (a := c.flipProgress) (b := c.targetFlipProgress) hstep
    have hfpLo : 0 ≤ c.flipProgress + sgnQ (c.targetFlipProgress - c.flipProgress) *
        min |c.targetFlipProgress - c.flipProgress| (1 / (flipDuration / 1000) * dt) :=
      le_trans (le_min h.fpLo h.tfpLo) hm.1
    have hfpHi : c.flipProgress + sgnQ (c.targetFlipProgress - c.flipProgress) *
        min |c.targetFlipProgress - c.flipProgress| (1 / (flipDuration / 1000) * dt) ≤ 2 :=
      le_trans hm.2 (max_le h.fpHi (le_trans h.tfpHi (by norm_num)))
    refine ⟨h.opacLo, h.opacHi, h.topacLo, h.topacHi, hfpLo, hfpHi, h.tfpLo,
      h.tfpHi, ?_, ?_, h.maxRotLo, h.maxRotHi, h.expILo, h.expIHi, h.trILo,
      h.trIHi, h.expTimer, h.trTimer, h.toffSq, h.flags⟩
    · exact mul_nonneg hfpLo hpi.le
    · show _ * piQ ≤ 2 * piQ
      nlinarith [hfpHi, hfpLo, hpi.le]
  · exact h

theorem inv_springEase {piQ : ℚ} (dt : ℚ) {c : CubeData} (h : Inv piQ c) :
    Inv piQ (springEase dt c).1 := by
  unfold springEase
  dsimp only
  split
  · exact ⟨h.opacLo, h.opacHi, h.topacLo, h.topacHi, h.fpLo, h.fpHi, h.tfpLo,
      h.tfpHi, h.angLo, h.angHi, h.maxRotLo, h.maxRotHi, h.expILo, h.expIHi,
      h.trILo, h.trIHi, h.expTimer, h.trTimer, h.toffSq, h.flags⟩
  · exact ⟨h.opacLo, h.opacHi, h.topacLo, h.topacHi, h.fpLo, h.fpHi, h.tfpLo,
      h.tfpHi, h.angLo, h.angHi, h.maxRotLo, h.maxRotHi, h.expILo, h.expIHi,
      h.trILo, h.trIHi, h.expTimer, h.trTimer, h.toffSq, h.flags⟩

theorem inv_opacityEase {piQ dt : ℚ} {c : CubeData} (hdt : 0 ≤ dt)
    (h : Inv piQ c) : Inv piQ (opacityEase dt c).1 := by
  unfold opacityEase
  dsimp only
  split
  · rename_i hgt
    have hstep : (0:ℚ) ≤ 2 * dt := by linarith
    have hm := moveToward_mem (a := c.currentOpacity) (b := c.targetOpacity) hstep
    refine ⟨?_, ?_, h.topacLo, h.topacHi, h.fpLo, h.fpHi, h.tfpLo, h.tfpHi,
      h.angLo, h.angHi, h.maxRotLo, h.maxRotHi, h.expILo, h.expIHi, h.trILo,
      h.trIHi, h.expTimer, h.trTimer, h.toffSq, h.flags⟩
    · exact le_trans (le_min h.opacLo h.topacLo) hm.1
    · exact le_trans hm.2 (max_le h.opacHi h.topacHi)
  · split
    · exact ⟨h.opacLo, h.opacHi, by norm_num, by norm_num, h.fpLo, h.fpHi,
        h.tfpLo, h.tfpHi, h.angLo, h.angHi, h.maxRotLo, h.maxRotHi, h.expILo,
        h.expIHi, h.trILo, h.trIHi, h.expTimer, h.trTimer, h.toffSq, h.flags⟩
    · exact h

theorem inv_normalStep {piQ dt : ℚ} {c : CubeData} (hpi : 0 < piQ)
    (hdt : 0 ≤ dt) (h : Inv piQ c) : Inv piQ (normalStep piQ dt c) := by
  unfold normalStep
  dsimp only
  split
  · exact ⟨h.opacLo, h.opacHi, h.topacLo, h.topacHi, h.fpLo, h.fpHi, h.tfpLo,
      h.tfpHi, h.angLo, h.angHi, h.maxRotLo, h.maxRotHi, h.expILo, h.expIHi,
      h.trILo, h.trIHi, h.expTimer, h.trTimer, h.toffSq, h.flags⟩
  · by_cases hc : c.flipDelay > 0
    · rw [if_pos hc]
      have hcc : Inv piQ { c with delayTimer := c.delayTimer + dt } :=
        ⟨h.opacLo, h.opacHi, h.topacLo, h.topacHi, h.fpLo, h.fpHi, h.tfpLo,
          h.tfpHi, h.angLo, h.angHi, h.maxRotLo, h.maxRotHi, h.expILo, h.expIHi,
          h.trILo, h.trIHi, h.expTimer, h.trTimer, h.toffSq, h.flags⟩
      have h3 := inv_opacityEase hdt (inv_springEase dt (inv_flipEase hpi hdt hcc))
      split
      · exact inv_applyUpdate hpi h3
      · exact h3
    · rw [if_neg hc]
      have h3 := inv_opacityEase hdt (inv_springEase dt (inv_flipEase hpi hdt h))
      split
      · exact inv_applyUpdate hpi h3
      · exact h3

theorem inv_update {piQ dt : ℚ} {sinPi : ℚ → ℚ} {c : CubeData} (hpi : 0 < piQ)
    (hdt : 0 ≤ dt) (h : Inv piQ c) :
    Inv piQ (updateCubeAnimationsCell piQ sinPi dt c) := by
  unfold updateCubeAnimationsCell
  split
  · rename_i hx
    exact inv_explodeStep hpi hdt h hx
  · split
    · rename_i hx
      exact inv_trailStep hpi hdt h hx
    · split
      · rename_i hx
        exact inv_returnStep hpi hdt h hx
      · exact inv_normalStep hpi hdt h

theorem inv_reaches {piQ : ℚ} {a c : CubeData} (hpi : 0 < piQ) (ha : Inv piQ a)
    (h : Reaches piQ a c) : Inv piQ c := by
  induction h with
  | refl => exact ha
  | flip now dist speed npos hr hd hs hn hsq ih => exact inv_flip hpi ih hd hs hn hsq
  | reset lenTO hr hl hsq ih => exact inv_reset hpi ih hl hsq
  | update sinPi dt hr hdt ih => exact inv_update hpi hdt ih

/-- The explode trigger run of `cExplode0` is a legal interaction step. -/
theorem reaches_cExplode0 : Reaches 3 (initialCube unitZ) cExplode0 :=
  Reaches.flip 0 (1/10) (18/5) 1 Reaches.refl (by norm_num) (by norm_num)
    (by norm_num) (by norm_num [initialCube, unitZ, V3.normSq])

/-- Seven maximal-step animation frames after the explode trigger form a
legal interaction trace. -/
theorem reaches_cExplode7 : Reaches 3 (initialCube unitZ) cExplode7 :=
  Reaches.update szero (33/1000)
    (Reaches.update szero (33/1000)
      (Reaches.update szero (33/1000)
        (Reaches.update szero (33/1000)
          (Reaches.update szero (33/1000)
            (Reaches.update szero (33/1000)
              (Reaches.update szero (33/1000) reaches_cExplode0
                (by norm_num)) (by norm_num)) (by norm_num)) (by norm_num))
          (by norm_num)) (by norm_num)) (by norm_num)

/-!
### Claim C1
-/

/-- C1 (corrected).  For every cell and every frame reachable by interaction
events from the initial state, `currentOpacity` lies in `[0,1]`; but
`flipProgress` is only bounded by `[0,2]`: the explode path sets
`currentRotationAngle` to up to `2π · explodeIntensity` and the frame
application recomputes `flipProgress = currentRotationAngle / π`, so
`flipProgress` exceeds `1` during a high-intensity explode
(see `C1_counterexample`). -/
theorem C1_bounded_state (piQ : ℚ) (p : V3) (c : CubeData) (hpi : 0 < piQ)
    (h : Reaches piQ (initialCube p) c) :
    (0 ≤ c.currentOpacity ∧ c.currentOpacity ≤ 1) ∧
      0 ≤ c.flipProgress ∧ c.flipProgress ≤ 2 := by
  have hi := inv_reaches hpi (inv_initialCube hpi p) h
  exact ⟨⟨hi.opacLo, hi.opacHi⟩, hi.fpLo, hi.fpHi⟩

/-- Witness for `C1_bounded_state` at a concrete reachable state. -/
theorem C1_bounded_state_witness :
    (0 ≤ cHover1.currentOpacity ∧ cHover1.currentOpacity ≤ 1) ∧
      0 ≤ cHover1.flipProgress ∧ cHover1.flipProgress ≤ 2 :=
  C1_bounded_state 3 unitZ cHover1 (by norm_num)
    (Reaches.update szero (33/1000)
      (Reaches.flip 0 0 0 1 Reaches.refl (le_refl 0) (le_refl 0) (by norm_num)
        (by norm_num [initialCube, unitZ, V3.normSq])) (by norm_num))

/-- C1 counterexample: after a high-speed activation (smoothed speed `3.6`,
twice the threshold) and seven legal animation frames, the reachable state
`cExplode7` has `flipProgress ≈ 1.9991 > 1`, refuting the claimed invariant
`flipProgress ∈ [0,1]`. -/
theorem C1_counterexample :
    Reaches 3 (initialCube unitZ) cExplode7 ∧ 1 < cExplode7.flipProgress := by
  refine ⟨reaches_cExplode7, ?_⟩
  norm_num [cExplode7, frame33, cExplode0, handleCubeFlipCell,
    updateCubeAnimationsCell, explodeStep, trailStep, returnStep, normalStep,
    flipEase, springEase, opacityEase, applyUpdate, initialCube, unitZ, szero,
    sgnQ, V3.normSq, V3.smul, V3.add, V3.sub, V3.zero, V3.normalizeW,
    mouseSpeedThreshold, maxFloatHeight, explodeDuration, explodeDistance,
    trailDuration, returnDuration, flipDuration, initialTrailVelocity,
    springStiffness, dampingRatioQ, min_def, max_def]

/-!
### Claim C10
-/

/-- C10 (confirmed).  Along every interaction trace, at most one of the
lifecycle flags `isInTrail`, `isInReturn`, `isExploding` is set:
`handleCubeFlip` clears the other two whenever it starts an explode or a
trail, `resetTrailStates` only fires when all three are clear, and each
`updateCubeAnimations` branch clears its own flag before setting the next
one. -/
theorem C10_flags_exclusive (piQ : ℚ) (p : V3) (c : CubeData) (hpi : 0 < piQ)
    (h : Reaches piQ (initialCube p) c) : flagCount c ≤ 1 :=
  (inv_reaches hpi (inv_initialCube hpi p) h).flags

/-- Witness for `C10_flags_exclusive` at a concrete reachable state (the
explode trigger). -/
theorem C10_flags_exclusive_witness : flagCount cExplode0 ≤ 1 :=
  C10_flags_exclusive 3 unitZ cExplode0 (by norm_num) reaches_cExplode0

/-!
### Claim C2
-/

/-- A request inside the 300 ms debounce window is discarded and the state
is left untouched (nothing is queued). -/
theorem switchTexture_dropped (mediaList : List String) (now : ℚ) (rnd : ℕ)
    (st : SwitchState) (hlen : mediaList.length ≠ 0)
    (hwin : now - st.lastSwitchTime < 300) :
    switchTexture mediaList now rnd st = (st, SwitchResult.dropped) := by
  unfold switchTexture
  rw [if_neg hlen, if_pos (Or.inl hwin)]

/-- C2 (corrected, ready path).  An accepted instant switch records the
request time, and any request issued less than 300 ms after it is dropped
with the state unchanged — dropped, not queued.  (The fallback load path
does not record the time; see `C2_counterexample`.) -/
theorem C2_debounce_accepted (mediaList : List String) (t1 t2 : ℚ)
    (rnd1 rnd2 : ℕ) (st st1 : SwitchState) (v : String)
    (h1 : switchTexture mediaList t1 rnd1 st = (st1, SwitchResult.instantSwitch v))
    (h2 : t2 - t1 < 300) :
    switchTexture mediaList t2 rnd2 st1 = (st1, SwitchResult.dropped) := by
  have hlen : mediaList.length ≠ 0 := by
    intro h0
    rw [switchTexture, if_pos h0] at h1
    have := congrArg Prod.snd h1
    simp at this
  have hlast : st1.lastSwitchTime = t1 := by
    rw [switchTexture, if_neg hlen] at h1
    by_cases hg : t1 - st.lastSwitchTime < 300 ∨ st.isLoadingTexture
    · rw [if_pos hg] at h1
      have := congrArg Prod.snd h1
      simp at this
    · rw [if_neg hg] at h1
      dsimp only at h1
      split at h1
      · split at h1
        · have := congrArg Prod.snd h1
          simp at this
        · have := congrArg Prod.snd h1
          simp at this
      · rw [Prod.mk.injEq] at h1
        rw [← h1.1]
  exact switchTexture_dropped mediaList t2 rnd2 st1 hlen (by rw [hlast]; exact h2)

/-- Witness for `C2_debounce_accepted`: two ready videos, an accepted
instant switch at `t = 1000`, a second request at `t = 1100`. -/
theorem C2_debounce_accepted_witness :
    switchTexture [vidA, vidB] 1100 0 stAfterA = (stAfterA, SwitchResult.dropped) := by
  have h1 : switchTexture [vidA, vidB] 1000 0 stReady =
      (stAfterA, SwitchResult.instantSwitch vidA) := by
    unfold switchTexture
    rw [if_neg (by norm_num), if_neg (by simp only [stReady]; norm_num)]
    rfl
  exact C2_debounce_accepted [vidA, vidB] 1000 1100 0 0 stReady stAfterA vidA h1
    (by norm_num)

/-- C2 counterexample: with an empty preload pool, two requests 100 ms
apart both pass the debounce guard (the fallback path never updates
`lastSwitchTimeRef`) and both start a texture switch via
`loadAndApplyTexture` — two applied switches issued less than 300 ms apart,
refuting "exactly one switch is applied". -/
theorem C2_counterexample :
    switchTexture [vidA, vidB] 1000 0 stEmptyPool =
        (stEmptyPool, SwitchResult.fallbackLoad vidA) ∧
      switchTexture [vidA, vidB] 1100 0 stEmptyPool =
        (stEmptyPool, SwitchResult.fallbackLoad vidA) ∧
      startsSwitch (SwitchResult.fallbackLoad vidA) = true ∧
      (1100 : ℚ) - 1000 < 300 := by
  refine ⟨?_, ?_, rfl, by norm_num⟩ <;>
    · unfold switchTexture
      rw [if_neg (by norm_num), if_neg (by simp only [stEmptyPool]; norm_num)]
      rfl

/-!
### Claim C3
-/

/-- C3 (corrected).  When the media list holds exactly the failing
identifier and the error is a transient `NetworkError` (`MediaError` code
2), the handler never blacklists it and always schedules another attempt of
the same file after a fixed 1000 ms delay — for every current blacklist,
network state and random draw.  There is no retry counter, no increasing
backoff and no fallback to the placeholder in this case. -/
theorem C3_single_video_retries_forever (failed : List String)
    (networkState rnd : ℕ) :
    handleVideoError [onlyVid] failed onlyVid (some mediaErrNetwork)
        networkState rnd =
      (failed, ErrorAction.retrySame 1000 onlyVid) := by
  unfold handleVideoError mediaErrNetwork
  norm_num

/-- C3 counterexample: three consecutive `NetworkError` failures of the
unique video each schedule a further identical retry and leave the
blacklist empty — after the claimed "exactly 2 retries" a third attempt is
still scheduled, the delay never grows, and the identifier is never
blacklisted. -/
theorem C3_counterexample :
    handleVideoError [onlyVid] [] onlyVid (some mediaErrNetwork) 3 0 =
        ([], ErrorAction.retrySame 1000 onlyVid) ∧
      handleVideoError [onlyVid]
          (handleVideoError [onlyVid] [] onlyVid (some mediaErrNetwork) 3 0).1
          onlyVid (some mediaErrNetwork) 3 0 =
        ([], ErrorAction.retrySame 1000 onlyVid) ∧
      handleVideoError [onlyVid]
          (handleVideoError [onlyVid]
            (handleVideoError [onlyVid] [] onlyVid (some mediaErrNetwork) 3 0).1
            onlyVid (some mediaErrNetwork) 3 0).1
          onlyVid (some mediaErrNetwork) 3 0 =
        ([], ErrorAction.retrySame 1000 onlyVid) := by
  refine ⟨?_, ?_, ?_⟩ <;> norm_num [handleVideoError, mediaErrNetwork]

/-!
### Claim C4
-/

/-- C4 (confirmed).  The geometry generator is a pure function — equal
inputs (trig oracle standing for the float trigonometry, and radius) give
the identical ordered output — and both polar rings (ring `0` and ring
`rings − 1`) receive exactly the polar floor of 10 cells, for every radius,
so no polar gap remains. -/
theorem C4_deterministic_polar_floor (tr tr2 : TrigOracle) (radius radius2 : ℚ)
    (ht : tr = tr2) (hr : radius = radius2) :
    generateCubePositions tr radius = generateCubePositions tr2 radius2 ∧
      (ringCells tr radius 0).length = 10 ∧
      (ringCells tr radius (rings - 1)).length = 10 ∧
      10 ≤ (ringCells tr radius 0).length := by
  subst ht
  subst hr
  refine ⟨rfl, ?_, ?_, ?_⟩
  · simp [ringCells, cubesInRing]
  · simp [ringCells, cubesInRing, rings]
  · simp [ringCells, cubesInRing]

/-- Witness for `C4_deterministic_polar_floor` at a concrete oracle and
radius. -/
theorem C4_deterministic_polar_floor_witness :
    generateCubePositions trZero 1 = generateCubePositions trZero 1 ∧
      (ringCells trZero 1 0).length = 10 ∧
      (ringCells trZero 1 (rings - 1)).length = 10 ∧
      10 ≤ (ringCells trZero 1 0).length :=
  C4_deterministic_polar_floor trZero trZero 1 1 rfl rfl

/-!
### Claim C5
-/

/-- C5 (corrected).  For a cell inside the influence radius on a
non-explosive frame, the activation intensity stored as `trailIntensity` is
the linear falloff `1 − distance/0.25`, the outward offset target is the
outward normal scaled by `maxFloatHeight × falloff`, but the flip target is
the falloff clamped from below at `0.3` (`max(0.3, falloff)`) and the
opacity target is the constant `0.92`, not a function of the falloff. -/
theorem C5_activation_falloff (piQ now dist speed npos : ℚ) (c : CubeData)
    (hdr : dist < 1/4) (hs : ¬ (speed > mouseSpeedThreshold))
    (hne : c.isExploding = false) :
    (handleCubeFlipCell piQ now dist speed npos c).trailIntensity =
        1 - dist / (1/4) ∧
      (handleCubeFlipCell piQ now dist speed npos c).targetFlipProgress =
        max (3/10) (1 - dist / (1/4)) ∧
      (handleCubeFlipCell piQ now dist speed npos c).targetOffset =
        V3.smul (maxFloatHeight * (1 - dist / (1/4)))
          (V3.normalizeW npos c.originalPosition) ∧
      (handleCubeFlipCell piQ now dist speed npos c).targetOpacity = 92/100 := by
  unfold handleCubeFlipCell
  dsimp only
  rw [if_pos hdr, if_neg (by tauto), if_pos hne]
  exact ⟨rfl, rfl, rfl, rfl⟩

/-- Witness for `C5_activation_falloff` at distance `0.2`, speed `0`. -/
theorem C5_activation_falloff_witness :
    (handleCubeFlipCell 3 0 (1/5) 0 1 (initialCube unitZ)).trailIntensity =
        1 - (1/5 : ℚ) / (1/4) ∧
      (handleCubeFlipCell 3 0 (1/5) 0 1 (initialCube unitZ)).targetFlipProgress =
        max (3/10) (1 - (1/5 : ℚ) / (1/4)) ∧
      (handleCubeFlipCell 3 0 (1/5) 0 1 (initialCube unitZ)).targetOffset =
        V3.smul (maxFloatHeight * (1 - (1/5 : ℚ) / (1/4)))
          (V3.normalizeW 1 (initialCube unitZ).originalPosition) ∧
      (handleCubeFlipCell 3 0 (1/5) 0 1 (initialCube unitZ)).targetOpacity =
        92/100 :=
  C5_activation_falloff 3 0 (1/5) 0 1 (initialCube unitZ) (by norm_num)
    (by norm_num [mouseSpeedThreshold]) rfl

/-- C5 counterexample: at distance `0.2` the falloff is `0.2` but the code
sets the flip target to `0.3 ≠ 0.2`; and the opacity target is the same
`0.92` at distance `0` and at distance `0.2`, so it is not refreshed from
the falloff value. -/
theorem C5_counterexample :
    (handleCubeFlipCell 3 0 (1/5) 0 1 (initialCube unitZ)).targetFlipProgress =
        3/10 ∧
      1 - (1/5 : ℚ) / (1/4) = 1/5 ∧
      (3/10 : ℚ) ≠ 1/5 ∧
      (handleCubeFlipCell 3 0 (1/5) 0 1 (initialCube unitZ)).targetOpacity =
        (handleCubeFlipCell 3 0 0 0 1 (initialCube unitZ)).targetOpacity := by
  refine ⟨?_, by norm_num, by norm_num, ?_⟩ <;>
    norm_num [handleCubeFlipCell, initialCube, unitZ, mouseSpeedThreshold,
      maxFloatHeight, max_def, min_def, V3.smul, V3.normalizeW]

/-!
### Claim C6
-/

/-- Concatenating the batches gives back the sorted list: every cell is
scheduled, each exactly once, across the animation frames. -/
theorem chunkBatches_flatten (l : List CubePrio) : (chunkBatches l).flatten = l := by
  generalize hn : l.length = n
  induction n using Nat.strong_induction_on generalizing l with
  | _ n ih =>
    rw [chunkBatches]
    split
    · rename_i h
      rw [h]
      rfl
    · rename_i h
      rw [List.flatten_cons]
      have hlt : (l.drop batchSize).length < n := by
        rw [← hn]
        simpa using Nat.sub_lt (List.length_pos.mpr h) (by norm_num [batchSize])
      rw [ih _ hlt _ rfl]
      exact List.take_append_drop _ _

/-- Every batch contains at most `batchSize` cells. -/
theorem chunkBatches_mem_length :
    ∀ (l b : List CubePrio), b ∈ chunkBatches l → b.length ≤ batchSize := by
  intro l
  generalize hn : l.length = n
  induction n using Nat.strong_induction_on generalizing l with
  | _ n ih =>
    intro b hb
    rw [chunkBatches] at hb
    split at hb
    · exact absurd hb (List.not_mem_nil b)
    · rename_i h
      rcases List.mem_cons.mp hb with hEq | hMem
      · rw [hEq, List.length_take]
        exact min_le_left _ _
      · have hlt : (l.drop batchSize).length < n := by
          rw [← hn]
          simpa using Nat.sub_lt (List.length_pos.mpr h) (by norm_num [batchSize])
        exact ih _ hlt _ rfl b hMem

/-- The number of animation frames the scheduler uses is the ceiling of
`cells / batchSize`. -/
theorem chunkBatches_length (l : List CubePrio) :
    (chunkBatches l).length = (l.length + batchSize - 1) / batchSize := by
  generalize hn : l.length = n
  induction n using Nat.strong_induction_on generalizing l with
  | _ n ih =>
    rw [chunkBatches]
    split
    · rename_i h
      subst h
      simp at hn
      subst hn
      rfl
    · rename_i h
      have hpos : 0 < l.length := List.length_pos.mpr h
      have hlt : (l.drop batchSize).length < n := by
        rw [← hn]
        simpa using Nat.sub_lt hpos (by norm_num [batchSize])
      rw [List.length_cons, ih _ hlt _ rfl, List.length_drop, hn]
      rw [batchSize] at *
      omega

/-- C6 (corrected).  The texture update scheduler sorts the cells by
descending composite priority, processes them in batches of at most 25 per
animation frame until every cell has been updated exactly once (the batch
concatenation is a permutation of the input), uses `⌈cells/25⌉` frames, and
each per-cell update disposes the old texture and old material before
installing the new per-cell UV-parameterized material that keeps the old
opacity.  The composite score is `0.7 × max(0, facingDot) +
0.3 × 1/(1 + 0.5·distance)` — a damped inverse-distance proximity, not the
plain inverse of the distance stated by the specification
(see `C6_counterexample`). -/
theorem C6_scheduler (l : List CubePrio) :
    (batches l).flatten.Perm l ∧
      (∀ b, b ∈ batches l → b.length ≤ batchSize) ∧
      List.Sorted prioGE (batches l).flatten ∧
      (batches l).length = (l.length + batchSize - 1) / batchSize ∧
      (∀ newTex uv old,
        (updateCellTexture newTex uv old).2 =
          [TexEvent.disposeTexture old.tex, TexEvent.disposeMaterial old.tex,
            TexEvent.install newTex] ∧
        (updateCellTexture newTex uv old).1.repeatUV = (uvSize, uvSize) ∧
        (updateCellTexture newTex uv old).1.offsetUV =
          (uv.1 * (1 - uvSize), uv.2 * (1 - uvSize)) ∧
        (updateCellTexture newTex uv old).1.opacity = old.opacity) := by
  refine ⟨?_, ?_, ?_, ?_, ?_⟩
  · rw [batches, chunkBatches_flatten]
    exact List.perm_insertionSort prioGE l
  · intro b hb
    exact chunkBatches_mem_length _ b hb
  · rw [batches, chunkBatches_flatten]
    exact List.sorted_insertionSort prioGE l
  · rw [batches, chunkBatches_length, sortByPriority, List.length_insertionSort]
  · intro newTex uv old
    exact ⟨rfl, rfl, rfl, rfl⟩

/-- Witness for `C6_scheduler` on a concrete one-cell list and a concrete
material update. -/
theorem C6_scheduler_witness :
    (batches cpOne).flatten.Perm cpOne ∧
      (sortByPriority cpOne).length ≤ batchSize ∧
      (updateCellTexture 7 (1/2, 1/3) matDemo).2 =
        [TexEvent.disposeTexture matDemo.tex, TexEvent.disposeMaterial matDemo.tex,
          TexEvent.install 7] := by
  refine ⟨(C6_scheduler cpOne).1, ?_, ((C6_scheduler cpOne).2.2.2.2 7 (1/2, 1/3) matDemo).1⟩
  exact (C6_scheduler cpOne).2.1 (sortByPriority cpOne)
    (by rw [batches, chunkBatches]; simp [sortByPriority, List.insertionSort, batchSize])

/-- C6 counterexample: for a cell at distance `1` facing away
(`facingDot = 0`), the source's score is `0.3 · 1/(1 + 0.5) = 1/5`, but the
specification's `0.3 × (inverse of distance)` gives `3/10`. -/
theorem C6_counterexample :
    priorityOf cpDemo = 1/5 ∧ priorityClaimed cpDemo = 3/10 ∧
      priorityOf cpDemo ≠ priorityClaimed cpDemo := by
  norm_num [priorityOf, priorityClaimed, cpDemo, max_def]

/-!
### Claim C7
-/

theorem flipEase_materials (piQ dt : ℚ) (c : CubeData) :
    (flipEase piQ dt c).1.materialsOpacity = c.materialsOpacity := by
  unfold flipEase
  dsimp only
  split <;> rfl

theorem flipEase_opacity (piQ dt : ℚ) (c : CubeData) :
    (flipEase piQ dt c).1.currentOpacity = c.currentOpacity := by
  unfold flipEase
  dsimp only
  split <;> rfl

theorem springEase_materials (dt : ℚ) (c : CubeData) :
    (springEase dt c).1.materialsOpacity = c.materialsOpacity := by
  unfold springEase
  dsimp only
  split <;> rfl

theorem opacityEase_materials (dt : ℚ) (c : CubeData) :
    (opacityEase dt c).1.materialsOpacity = c.materialsOpacity := by
  unfold opacityEase
  dsimp only
  split
  · rfl
  · split <;> rfl

theorem applyUpdate_materials (piQ : ℚ) (x : CubeData) (L : List ℚ)
    (hm : x.materialsOpacity = L) :
    (applyUpdate piQ x).materialsOpacity =
      L.map (fun _ => (applyUpdate piQ x).currentOpacity) := by
  show x.materialsOpacity.map (fun _ => x.currentOpacity) =
    L.map (fun _ => x.currentOpacity)
  rw [hm]

theorem normalStep_materials (piQ dt : ℚ) (c : CubeData) :
    (normalStep piQ dt c).materialsOpacity = c.materialsOpacity ∨
      (normalStep piQ dt c).materialsOpacity =
        c.materialsOpacity.map (fun _ => (normalStep piQ dt c).currentOpacity) := by
  unfold normalStep
  dsimp only
  split
  · exact Or.inl rfl
  · by_cases hc : c.flipDelay > 0
    · rw [if_pos hc]
      have hm : (opacityEase dt (springEase dt (flipEase piQ dt
          { c with delayTimer := c.delayTimer + dt }).1).1).1.materialsOpacity =
          c.materialsOpacity := by
        rw [opacityEase_materials, springEase_materials, flipEase_materials]
      split
      · exact Or.inr (applyUpdate_materials piQ _ _ hm)
      · exact Or.inl hm
    · rw [if_neg hc]
      have hm : (opacityEase dt (springEase dt
          (flipEase piQ dt c).1).1).1.materialsOpacity = c.materialsOpacity := by
        rw [opacityEase_materials, springEase_materials, flipEase_materials]
      split
      · exact Or.inr (applyUpdate_materials piQ _ _ hm)
      · exact Or.inl hm

/-- C7 (corrected).  A frame that applies animation results writes
`currentOpacity` into the `opacity` of every entry of the cell's material
array — all six faces, the five shade faces included — via
`material.forEach`; it is not applied to the front-facing material only.
Formally: each `updateCubeAnimations` frame either leaves the material
opacities untouched (no update needed) or overwrites every one of them with
the cell's new `currentOpacity`. -/
theorem C7_opacity_all_faces (piQ dt : ℚ) (sinPi : ℚ → ℚ) (c : CubeData) :
    (updateCubeAnimationsCell piQ sinPi dt c).materialsOpacity =
        c.materialsOpacity ∨
      (updateCubeAnimationsCell piQ sinPi dt c).materialsOpacity =
        c.materialsOpacity.map
          (fun _ => (updateCubeAnimationsCell piQ sinPi dt c).currentOpacity) := by
  unfold updateCubeAnimationsCell
  split
  · unfold explodeStep
    dsimp only
    split
    · exact Or.inr rfl
    · exact Or.inl rfl
  · split
    · unfold trailStep
      dsimp only
      split
      · exact Or.inr rfl
      · exact Or.inl rfl
    · split
      · unfold returnStep
        dsimp only
        split
        · exact Or.inr rfl
        · exact Or.inr rfl
      · exact normalStep_materials piQ dt c

/-- C7 counterexample: hovering a cell (distance `0`) and running one
animation frame changes the opacity of material index `0` — a side face,
not the front face (index 4) — from `1.0` to `0.934`, refuting "the
materials of the other five faces remain unchanged". -/
theorem C7_counterexample :
    cHover1.materialsOpacity = List.replicate 6 (467/500) ∧
      (initialCube unitZ).materialsOpacity = List.replicate 6 1 ∧
      (467/500 : ℚ) ≠ 1 := by
  refine ⟨?_, rfl, by norm_num⟩
  norm_num [cHover1, cHover0, handleCubeFlipCell, updateCubeAnimationsCell,
    explodeStep, trailStep, returnStep, normalStep, flipEase, springEase,
    opacityEase, applyUpdate, initialCube, unitZ, szero, sgnQ, V3.normSq,
    V3.smul, V3.add, V3.sub, V3.zero, V3.normalizeW, mouseSpeedThreshold,
    maxFloatHeight, explodeDuration, explodeDistance, trailDuration,
    returnDuration, flipDuration, initialTrailVelocity, springStiffness,
    dampingRatioQ, min_def, max_def, absQ_def, List.replicate]

/-!
### Claim C8
-/

/-- C8 (confirmed).  (a) A cell within the influence radius on a frame
whose smoothed pointer speed exceeds the threshold, and not already
exploding, transitions to Exploding with explode direction the outward
sphere normal of its original position (`originalPosition.normalize()`) and
intensity `min(1, speed/threshold)`.  (b) During the explode window the
outward displacement is `explodeDistance · intensity · sin(progress·π)`
along the unit explode direction, and its squared length never exceeds
`explodeDistance²` (the half-sine sample lies in `[0,1]`, see
`halfSine_bounds`).  (c) Once the explode timer reaches `explodeDuration`,
the cell leaves Exploding and enters Returning. -/
theorem C8_explode_behavior (piQ now dist speed npos dt : ℚ) (sinPi : ℚ → ℚ)
    (c : CubeData) (hdr : dist < 1/4) (hs : speed > mouseSpeedThreshold)
    (hne : c.isExploding = false) :
    ((handleCubeFlipCell piQ now dist speed npos c).isExploding = true ∧
      (handleCubeFlipCell piQ now dist speed npos c).explodeDirection =
        V3.normalizeW npos c.originalPosition ∧
      (handleCubeFlipCell piQ now dist speed npos c).explodeIntensity =
        min 1 (speed / mouseSpeedThreshold)) ∧
    (∀ c2 : CubeData, c2.isExploding = true →
      0 ≤ c2.explodeIntensity → c2.explodeIntensity ≤ 1 →
      c2.explodeDirection.normSq = 1 →
      c2.explodeTimer + dt * 1000 < explodeDuration →
      0 ≤ sinPi ((c2.explodeTimer + dt * 1000) / explodeDuration) →
      sinPi ((c2.explodeTimer + dt * 1000) / explodeDuration) ≤ 1 →
      (updateCubeAnimationsCell piQ sinPi dt c2).currentOffset.normSq ≤
        explodeDistance ^ 2) ∧
    (∀ c2 : CubeData, c2.isExploding = true →
      c2.explodeTimer + dt * 1000 ≥ explodeDuration →
      (updateCubeAnimationsCell piQ sinPi dt c2).isExploding = false ∧
      (updateCubeAnimationsCell piQ sinPi dt c2).isInReturn = true) := by
  refine ⟨?_, ?_, ?_⟩
  · unfold handleCubeFlipCell
    dsimp only
    rw [if_pos hdr, if_pos ⟨hs, hne⟩]
    exact ⟨rfl, rfl, rfl⟩
  · intro c2 hx hiLo hiHi hdir hlt hs0 hs1
    unfold updateCubeAnimationsCell
    rw [if_pos hx]
    unfold explodeStep
    dsimp only
    rw [if_pos hlt]
    show (V3.smul (explodeDistance * c2.explodeIntensity *
      sinPi ((c2.explodeTimer + dt * 1000) / explodeDuration))
      c2.explodeDirection).normSq ≤ explodeDistance ^ 2
    rw [V3.normSq_smul, hdir, mul_one, explodeDistance]
    nlinarith [mul_le_one₀ hiHi hs0 hs1, mul_nonneg hiLo hs0]
  · intro c2 hx hge
    unfold updateCubeAnimationsCell
    rw [if_pos hx]
    unfold explodeStep
    dsimp only
    rw [if_neg (not_lt.mpr hge)]
    exact ⟨rfl, rfl⟩

/-- Witness for `C8_explode_behavior`: the trigger at distance `0.1` and
speed `3.6` on a fresh cell, the bounded displacement on a mid-explosion
cell at timer `100 ms`, and the transition to Returning on a cell at timer
`240 ms`, all with frame time `0.033 s` and the constant `1/2` standing for
the half-sine sample. -/
theorem C8_explode_behavior_witness :
    ((handleCubeFlipCell 3 0 (1/10) (18/5) 1 (initialCube unitZ)).isExploding = true ∧
      (handleCubeFlipCell 3 0 (1/10) (18/5) 1 (initialCube unitZ)).explodeDirection =
        V3.normalizeW 1 (initialCube unitZ).originalPosition ∧
      (handleCubeFlipCell 3 0 (1/10) (18/5) 1 (initialCube unitZ)).explodeIntensity =
        min 1 ((18/5) / mouseSpeedThreshold)) ∧
      (updateCubeAnimationsCell 3 shalf (33/1000) cExpMid).currentOffset.normSq ≤
        explodeDistance ^ 2 ∧
      (updateCubeAnimationsCell 3 shalf (33/1000) cExpLate).isExploding = false ∧
      (updateCubeAnimationsCell 3 shalf (33/1000) cExpLate).isInReturn = true := by
  have hT := C8_explode_behavior 3 0 (1/10) (18/5) 1 (33/1000) shalf
    (initialCube unitZ) (by norm_num) (by norm_num [mouseSpeedThreshold]) rfl
  refine ⟨hT.1, ?_, ?_, ?_⟩
  · exact hT.2.1 cExpMid rfl (by norm_num [cExpMid, initialCube])
      (by norm_num [cExpMid, initialCube])
      (by norm_num [cExpMid, initialCube, unitZ, V3.normSq])
      (by norm_num [cExpMid, initialCube, explodeDuration])
      (by norm_num [shalf]) (by norm_num [shalf])
  · exact (hT.2.2 cExpLate rfl (by norm_num [cExpLate, initialCube, explodeDuration])).1
  · exact (hT.2.2 cExpLate rfl (by norm_num [cExpLate, initialCube, explodeDuration])).2

/-!
### Claim C9
-/

theorem jsMod1_nonneg (x : ℚ) : 0 ≤ jsMod1 x := Int.fract_nonneg x

theorem jsMod1_lt_one (x : ℚ) : jsMod1 x < 1 := Int.fract_lt_one x

/-- C9 (corrected).  For every generated cell, the stored `u` is the
normalized azimuth shifted by one half and wrapped modulo one,
`u = (θ/2π + 0.5) % 1` (hence `u ∈ [0,1)`), and the stored `v` is one minus
the normalized polar angle, `v = 1 − φ/π` — not `θ/2π` and `φ/π` themselves
(see `C9_counterexample`). -/
theorem C9_uv_formula (tr : TrigOracle) (radius : ℚ) (ring i : ℕ)
    (hi : i < cubesInRing tr radius ring) :
    ((ringCells tr radius ring).getD i dfltCell).u =
        jsMod1 (thetaN (cubesInRing tr radius ring) i + 1/2) ∧
      ((ringCells tr radius ring).getD i dfltCell).v = 1 - phiN ring ∧
      0 ≤ ((ringCells tr radius ring).getD i dfltCell).u ∧
      ((ringCells tr radius ring).getD i dfltCell).u < 1 := by
  have hcell : (ringCells tr radius ring).getD i dfltCell =
      { pos := ⟨tr.sinpi (phiN ring) * radius * tr.cos2pi (thetaN (cubesInRing tr radius ring) i),
               tr.cospi (phiN ring) * radius,
               tr.sinpi (phiN ring) * radius * tr.sin2pi (thetaN (cubesInRing tr radius ring) i)⟩
        u := jsMod1 (thetaN (cubesInRing tr radius ring) i + 1/2)
        v := 1 - phiN ring
        ring := ring
        idx := i } := by
    unfold ringCells
    dsimp only
    show (List.map _ (List.range (cubesInRing tr radius ring))).getD i dfltCell = _
    rw [List.getD, List.get?_eq_getElem?, List.getElem?_map, List.getElem?_range hi]
    rfl
  rw [hcell]
  exact ⟨rfl, rfl, jsMod1_nonneg _, jsMod1_lt_one _⟩

/-- Witness for `C9_uv_formula` at the first cell of the first ring. -/
theorem C9_uv_formula_witness :
    ((ringCells trZero 1 0).getD 0 dfltCell).u =
        jsMod1 (thetaN (cubesInRing trZero 1 0) 0 + 1/2) ∧
      ((ringCells trZero 1 0).getD 0 dfltCell).v = 1 - phiN 0 ∧
      0 ≤ ((ringCells trZero 1 0).getD 0 dfltCell).u ∧
      ((ringCells trZero 1 0).getD 0 dfltCell).u < 1 :=
  C9_uv_formula trZero 1 0 0 (by norm_num [cubesInRing, rings])

/-- C9 counterexample: the first cell of ring `0` has `θ/2π = 0` but
`u = 1/2`, and `φ/π = 1/62` but `v = 61/62`: the stored UV is not
`(θ/2π, φ/π)`. -/
theorem C9_counterexample :
    ((ringCells trZero 1 0).getD 0 dfltCell).u = 1/2 ∧
      thetaN (cubesInRing trZero 1 0) 0 = 0 ∧
      ((ringCells trZero 1 0).getD 0 dfltCell).u ≠
        thetaN (cubesInRing trZero 1 0) 0 ∧
      ((ringCells trZero 1 0).getD 0 dfltCell).v = 61/62 ∧
      phiN 0 = 1/62 ∧
      ((ringCells trZero 1 0).getD 0 dfltCell).v ≠ phiN 0 := by
  have h10 : cubesInRing trZero 1 0 = 10 := by simp [cubesInRing]
  have hc := C9_uv_formula trZero 1 0 0 (by rw [h10]; norm_num)
  have hu : ((ringCells trZero 1 0).getD 0 dfltCell).u = 1/2 := by
    rw [hc.1, h10]
    norm_num [jsMod1, thetaN]
  have hv : ((ringCells trZero 1 0).getD 0 dfltCell).v = 61/62 := by
    rw [hc.2.1]
    norm_num [phiN, rings]
  have hth : thetaN (cubesInRing trZero 1 0) 0 = 0 := by
    rw [h10]
    norm_num [thetaN]
  have hph : phiN 0 = 1/62 := by norm_num [phiN, rings]
  refine ⟨hu, hth, ?_, hv, hph, ?_⟩
  · rw [hu, hth]
    norm_num
  · rw [hv, hph]
    norm_num

end Friendly
